import Mathlib

/-!
Shallow embedding of the sparse ADMM QP solver
(`src/solvers/qp_solver_sparse.hpp`, namespace `qp_solver_sparse`).

Scalars are modelled by `ℚ` (exact arithmetic standing for the C++
floating-point `Scalar`).  Vectors of compile-time length `k` are
`Fin k → ℚ`.  The abstract sparse linear-solver collaborator
(`compute` / `factorize` / `solve`) is modelled by a stored matrix plus a
function parameter `lin` mapping the stored matrix and a right-hand side
to a solution vector; the floating-point `sqrt` used by `rho_estimate`
is likewise a function parameter `sq`.  All state mutation is explicit
state passing on a `Workspace` record mirroring the solver's members.
-/

set_option maxRecDepth 8000

namespace QPSolverSparse

/-- Constraint classification tags, mirroring the anonymous enum stored in
`constr_type[m]`. -/
inductive ConstrType where
  | INEQUALITY_CONSTRAINT
  | EQUALITY_CONSTRAINT
  | LOOSE_BOUNDS
deriving DecidableEq, Repr

/-- Solver status, mirroring the anonymous enum in `qp_solver_info_t`. -/
inductive Status where
  | SOLVED
  | MAX_ITER
deriving DecidableEq, Repr

/-- The problem data `QP<n,m>`: cost `½ xᵀPx + qᵀx`, constraints `l ≤ Ax ≤ u`. -/
structure QP (n m : ℕ) where
  P : Fin n → Fin n → ℚ
  q : Fin n → ℚ
  A : Fin m → Fin n → ℚ
  l : Fin m → ℚ
  u : Fin m → ℚ

/-- `qp_sover_settings_t` with the defaults from the source. -/
structure Settings where
  rho : ℚ := 1 / 10
  sigma : ℚ := 1 / 1000000
  alpha : ℚ := 1
  eps_rel : ℚ := 1 / 1000
  eps_abs : ℚ := 1 / 1000
  max_iter : ℤ := 1000
  check_termination : ℤ := 25
  warm_start : Bool := false
  adaptive_rho : Bool := false
  adaptive_rho_tolerance : ℚ := 5
  adaptive_rho_interval : ℤ := 25

def RHO_MIN : ℚ := 1 / 1000000
def RHO_MAX : ℚ := 1000000
def RHO_TOL : ℚ := 1 / 10000
def RHO_EQ_FACTOR : ℚ := 1000
def LOOSE_BOUNDS_THRESH : ℚ := 10 ^ 16
def DIV_BY_ZERO_REGUL : ℚ := 1 / 10 ^ 10

/-- The mutable members of `QPSolverSparse` that the algorithm reads or
writes: iterates, penalty vectors, cached norms, classification, info,
the assembled KKT matrix (`kkt_mat_sparse`) and the matrix currently held
by the linear solver (`ls_mat`, written by `compute` / `factorize`). -/
structure Workspace (n m : ℕ) where
  x : Fin n → ℚ
  z : Fin m → ℚ
  y : Fin m → ℚ
  x_tilde : Fin n → ℚ
  z_tilde : Fin m → ℚ
  z_prev : Fin m → ℚ
  rho_vec : Fin m → ℚ
  rho_inv_vec : Fin m → ℚ
  rho : ℚ
  max_Ax_z_norm : ℚ
  max_Px_ATy_q_norm : ℚ
  constr_type : Fin m → ConstrType
  info_status : Status
  info_iter : ℤ
  info_res_prim : ℚ
  info_res_dual : ℚ
  kkt : Fin (n + m) → Fin (n + m) → ℚ
  ls_mat : Fin (n + m) → Fin (n + m) → ℚ

/-- Abstract linear-solver `solve` operation: from the stored factorized
matrix and a right-hand side to a solution vector. -/
def LinSolver (n m : ℕ) : Type :=
  (Fin (n + m) → Fin (n + m) → ℚ) → (Fin (n + m) → ℚ) → (Fin (n + m) → ℚ)

/-- Dot product of two length-`k` vectors. -/
def dot {k : ℕ} (a b : Fin k → ℚ) : ℚ :=
  (List.ofFn fun i => a i * b i).sum

/-- Matrix–vector product `A·v` (Eigen `qp.A * x`). -/
def matVec {r c : ℕ} (A : Fin r → Fin c → ℚ) (v : Fin c → ℚ) : Fin r → ℚ :=
  fun i => dot (A i) v

/-- Transposed product `Aᵀ·w` (Eigen `qp.A.transpose() * y`). -/
def matTVec {r c : ℕ} (A : Fin r → Fin c → ℚ) (w : Fin r → ℚ) : Fin c → ℚ :=
  fun j => (List.ofFn fun i => A i j * w i).sum

/-- Infinity norm `lpNorm<Eigen::Infinity>` of a length-`k` vector. -/
def infNorm {k : ℕ} (v : Fin k → ℚ) : ℚ :=
  (List.ofFn fun i => |v i|).foldr max 0

variable {n m : ℕ}

/-- `box_projection`: `z.cwiseMax(l).cwiseMin(u)`, componentwise
`min (max (z i) (l i)) (u i)`. -/
def box_projection (z l u : Fin m → ℚ) : Fin m → ℚ :=
  fun i => min (max (z i) (l i)) (u i)

/-- Per-row classification performed by `constr_type_init`. -/
def classify (l u : ℚ) : ConstrType :=
  if l < -LOOSE_BOUNDS_THRESH ∧ LOOSE_BOUNDS_THRESH < u then
    ConstrType.LOOSE_BOUNDS
  else if u - l < RHO_TOL then
    ConstrType.EQUALITY_CONSTRAINT
  else
    ConstrType.INEQUALITY_CONSTRAINT

/-- `constr_type_init(qp)`: classify every row of `(l, u)`. -/
def constr_type_init (qp : QP n m) (st : Workspace n m) : Workspace n m :=
  { st with constr_type := fun i => classify (qp.l i) (qp.u i) }

/-- The `rho_vec` produced by `rho_update(rho0)` from a classification. -/
def rho_vec_of (ct : Fin m → ConstrType) (rho0 : ℚ) : Fin m → ℚ :=
  fun i =>
    match ct i with
    | ConstrType.LOOSE_BOUNDS => RHO_MIN
    | ConstrType.EQUALITY_CONSTRAINT => RHO_EQ_FACTOR * rho0
    | ConstrType.INEQUALITY_CONSTRAINT => rho0

/-- `rho_update(rho0)`: fill `rho_vec` by class, `rho_inv_vec` as the
coefficient-wise inverse, and set the scalar `rho := rho0`. -/
def rho_update (rho0 : ℚ) (st : Workspace n m) : Workspace n m :=
  { st with
    rho_vec := rho_vec_of st.constr_type rho0
    rho_inv_vec := fun i => (rho_vec_of st.constr_type rho0 i)⁻¹
    rho := rho0 }

/-- The KKT matrix written by `KKT_mat_update`: block rows/columns split
at `n`.  The top-right `Aᵀ` block is always populated, because the guard
`LinearSolver_UpLo == Eigen::Upper|Eigen::Lower` parses in C++ as
`(LinearSolver_UpLo == Eigen::Upper) | Eigen::Lower`, which is nonzero
for every template argument. -/
def KKT_assemble (qp : QP n m) (sigma : ℚ) (rho_inv_vec : Fin m → ℚ) :
    Fin (n + m) → Fin (n + m) → ℚ :=
  fun i j =>
    if hi : (i : ℕ) < n then
      if hj : (j : ℕ) < n then
        qp.P ⟨i, hi⟩ ⟨j, hj⟩ + (if (i : ℕ) = (j : ℕ) then sigma else 0)
      else
        qp.A ⟨(j : ℕ) - n, by omega⟩ ⟨i, hi⟩
    else
      if hj : (j : ℕ) < n then
        qp.A ⟨(i : ℕ) - n, by omega⟩ ⟨j, hj⟩
      else if (i : ℕ) = (j : ℕ) then
        -rho_inv_vec ⟨(i : ℕ) - n, by omega⟩
      else 0

/-- `KKT_mat_update(qp, kkt_mat)`: assemble the matrix (the dense matrix
and its `sparseView` hold the same coefficients, modelled by one field). -/
def KKT_mat_update (qp : QP n m) (s : Settings) (st : Workspace n m) : Workspace n m :=
  { st with kkt := KKT_assemble qp s.sigma st.rho_inv_vec }

/-- `linear_solver.compute` / `linear_solver.factorize`: the linear
solver takes (a factorization of) the currently assembled matrix. -/
def linear_solver_factorize (st : Workspace n m) : Workspace n m :=
  { st with ls_mat := st.kkt }

/-- `form_KKT_rhs(qp, rhs)`: head is `σ·x − q`, tail is `z − ρ⁻¹ ⊙ y`. -/
def form_KKT_rhs (qp : QP n m) (s : Settings) (st : Workspace n m) :
    Fin (n + m) → ℚ :=
  fun i =>
    if hi : (i : ℕ) < n then
      s.sigma * st.x ⟨i, hi⟩ - qp.q ⟨i, hi⟩
    else
      st.z ⟨(i : ℕ) - n, by omega⟩ -
        st.rho_inv_vec ⟨(i : ℕ) - n, by omega⟩ * st.y ⟨(i : ℕ) - n, by omega⟩

/-- `x_tilde_nu.head<n>()`. -/
def headN {k : ℕ} (w : Fin (n + k) → ℚ) : Fin n → ℚ :=
  fun j => w (Fin.castAdd k j)

/-- `x_tilde_nu.tail<m>()`. -/
def tailM (w : Fin (n + m) → ℚ) : Fin m → ℚ :=
  fun i => w (Fin.natAdd n i)

/-- Steps 1–6 of the loop body of `solve`: save `z_prev`, solve the KKT
system, split, relax `x`, relax and project `z`, update `y`. -/
def admm_iteration (qp : QP n m) (s : Settings) (lin : LinSolver n m)
    (st : Workspace n m) : Workspace n m :=
  let zp := st.z
  let rhs := form_KKT_rhs qp s st
  let w := lin st.ls_mat rhs
  let xt := headN w
  let zt := fun i => zp i + st.rho_inv_vec i * (tailM w i - st.y i)
  let xn := fun j => s.alpha * xt j + (1 - s.alpha) * st.x j
  let z0 := fun i => s.alpha * zt i + (1 - s.alpha) * zp i + st.rho_inv_vec i * st.y i
  let zn := box_projection z0 qp.l qp.u
  let yn := fun i => st.y i + st.rho_vec i * (s.alpha * zt i + (1 - s.alpha) * zp i - zn i)
  { st with x := xn, z := zn, y := yn, x_tilde := xt, z_tilde := zt, z_prev := zp }

/-- `residual_prim(qp)` = `‖A x − z‖∞`. -/
def residual_prim (qp : QP n m) (st : Workspace n m) : ℚ :=
  infNorm (fun i => matVec qp.A st.x i - st.z i)

/-- `residual_dual(qp)` = `‖P x + q + Aᵀ y‖∞`. -/
def residual_dual (qp : QP n m) (st : Workspace n m) : ℚ :=
  infNorm (fun j => matVec qp.P st.x j + qp.q j + matTVec qp.A st.y j)

/-- `eps_prim(qp)` = `eps_abs + eps_rel · max(‖Ax‖∞, ‖z‖∞)`. -/
def eps_prim (qp : QP n m) (s : Settings) (st : Workspace n m) : ℚ :=
  s.eps_abs + s.eps_rel * max (infNorm (matVec qp.A st.x)) (infNorm st.z)

/-- `eps_dual(qp)` = `eps_abs + eps_rel · max(‖Px‖∞, max(‖Aᵀy‖∞, ‖q‖∞))`. -/
def eps_dual (qp : QP n m) (s : Settings) (st : Workspace n m) : ℚ :=
  s.eps_abs + s.eps_rel *
    max (infNorm (matVec qp.P st.x)) (max (infNorm (matTVec qp.A st.y)) (infNorm qp.q))

/-- `update_state(qp)`: refresh the cached scale norms and the residuals
stored in `_info`. -/
def update_state (qp : QP n m) (st : Workspace n m) : Workspace n m :=
  { st with
    max_Ax_z_norm := max (infNorm (matVec qp.A st.x)) (infNorm st.z)
    max_Px_ATy_q_norm :=
      max (infNorm (matVec qp.P st.x)) (max (infNorm (matTVec qp.A st.y)) (infNorm qp.q))
    info_res_prim := residual_prim qp st
    info_res_dual := residual_dual qp st }

/-- `rho_estimate(rho0, qp)`: normalized residual ratio scaled through
the abstract square root `sq`. -/
def rho_estimate (sq : ℚ → ℚ) (rho0 : ℚ) (st : Workspace n m) : ℚ :=
  let rp_norm := st.info_res_prim / (st.max_Ax_z_norm + DIV_BY_ZERO_REGUL)
  let rd_norm := st.info_res_dual / (st.max_Px_ATy_q_norm + DIV_BY_ZERO_REGUL)
  rho0 * sq (rp_norm / (rd_norm + DIV_BY_ZERO_REGUL))

/-- `termination_criteria(qp)`: both stored residuals within tolerance. -/
def termination_criteria (qp : QP n m) (s : Settings) (st : Workspace n m) : Prop :=
  st.info_res_prim ≤ eps_prim qp s st ∧ st.info_res_dual ≤ eps_dual qp s st

instance (qp : QP n m) (s : Settings) (st : Workspace n m) :
    Decidable (termination_criteria qp s st) :=
  inferInstanceAs (Decidable (_ ∧ _))

/-- The per-iteration guard `check_termination != 0 && iter % check_termination == 0`. -/
def check_cond (s : Settings) (iter : ℤ) : Prop :=
  s.check_termination ≠ 0 ∧ iter % s.check_termination = 0

instance (s : Settings) (iter : ℤ) : Decidable (check_cond s iter) :=
  inferInstanceAs (Decidable (_ ∧ _))

/-- The guard `adaptive_rho && iter % adaptive_rho_interval == 0`. -/
def adaptive_cond (s : Settings) (iter : ℤ) : Prop :=
  s.adaptive_rho = true ∧ iter % s.adaptive_rho_interval = 0

instance (s : Settings) (iter : ℤ) : Decidable (adaptive_cond s iter) :=
  inferInstanceAs (Decidable (_ ∧ _))

/-- The clamped estimate `fmax(RHO_MIN, fmin(rho_estimate(rho, qp), RHO_MAX))`. -/
def new_rho_of (sq : ℚ → ℚ) (st : Workspace n m) : ℚ :=
  max RHO_MIN (min (rho_estimate sq st.rho st) RHO_MAX)

/-- The multiplicative trigger
`new_rho < rho / adaptive_rho_tolerance || new_rho > rho * adaptive_rho_tolerance`. -/
def rho_trigger (s : Settings) (st : Workspace n m) (new_rho : ℚ) : Prop :=
  new_rho < st.rho / s.adaptive_rho_tolerance ∨
    new_rho > st.rho * s.adaptive_rho_tolerance

instance (s : Settings) (st : Workspace n m) (new_rho : ℚ) :
    Decidable (rho_trigger s st new_rho) :=
  inferInstanceAs (Decidable (_ ∨ _))

/-- The inner body of the adaptive-ρ block, acting on the refreshed state:
clamp the estimate and, on trigger, re-run `rho_update`, `KKT_mat_update`
and `factorize`. -/
def rho_adapt (qp : QP n m) (s : Settings) (sq : ℚ → ℚ)
    (st4 : Workspace n m) : Workspace n m :=
  if rho_trigger s st4 (new_rho_of sq st4) then
    linear_solver_factorize (KKT_mat_update qp s (rho_update (new_rho_of sq st4) st4))
  else st4

/-- The adaptive-ρ block at the end of the loop body: refresh the state
unless the termination check already did, then run `rho_adapt`. -/
def adaptive_rho_step (qp : QP n m) (s : Settings) (sq : ℚ → ℚ) (iter : ℤ)
    (checked : Bool) (st : Workspace n m) : Workspace n m :=
  if adaptive_cond s iter then
    rho_adapt qp s sq (if checked then st else update_state qp st)
  else st

/-- One pass of the `for` loop body of `solve` at loop counter `iter`.
Returns the new state and whether the `break` on convergence fired. -/
def solve_iteration (qp : QP n m) (s : Settings) (lin : LinSolver n m)
    (sq : ℚ → ℚ) (iter : ℤ) (st : Workspace n m) : Workspace n m × Bool :=
  let st1 := admm_iteration qp s lin st
  if check_cond s iter then
    let st2 := update_state qp st1
    if termination_criteria qp s st2 then
      ({ st2 with info_status := Status.SOLVED }, true)
    else
      (adaptive_rho_step qp s sq iter true st2, false)
  else
    (adaptive_rho_step qp s sq iter false st1, false)

/-- The `for (iter = 1; iter <= max_iter; iter++)` loop, driven by the
remaining iteration count `fuel` while threading the C++ counter `iter`.
Returns the final state, the counter value at loop exit, and whether the
loop exited through `break`. -/
def run_loop (qp : QP n m) (s : Settings) (lin : LinSolver n m) (sq : ℚ → ℚ) :
    ℕ → ℤ → Workspace n m → Workspace n m × ℤ × Bool
  | 0, iter, st => (st, iter, false)
  | fuel + 1, iter, st =>
    let p := solve_iteration qp s lin sq iter st
    if p.2 then (p.1, iter, true)
    else run_loop qp s lin sq fuel (iter + 1) p.1

/-- The part of `solve` before the loop: optional cold-start reset, then
`constr_type_init`, `rho_update(settings.rho)`, `KKT_mat_update`, and the
initial `linear_solver.compute`. -/
def solve_prep (qp : QP n m) (s : Settings) (st : Workspace n m) : Workspace n m :=
  let st0 :=
    if s.warm_start then st
    else { st with x := fun _ => 0, z := fun _ => 0, y := fun _ => 0 }
  linear_solver_factorize
    (KKT_mat_update qp s (rho_update s.rho (constr_type_init qp st0)))

/-- `QPSolverSparse::solve(qp)`. -/
def solve (qp : QP n m) (s : Settings) (lin : LinSolver n m) (sq : ℚ → ℚ)
    (st : Workspace n m) : Workspace n m :=
  let r := run_loop qp s lin sq s.max_iter.toNat 1 (solve_prep qp s st)
  let st4 :=
    if s.max_iter < r.2.1 then { r.1 with info_status := Status.MAX_ITER } else r.1
  { st4 with info_iter := r.2.1 }

/-! ### Concrete instances used to exercise the theorems -/

/-- Zero-initialized workspace (the constructor zeroes `x`, `z`, `y`; the
remaining members are given definite zero values here). -/
def ws0 (n m : ℕ) : Workspace n m where
  x := fun _ => 0
  z := fun _ => 0
  y := fun _ => 0
  x_tilde := fun _ => 0
  z_tilde := fun _ => 0
  z_prev := fun _ => 0
  rho_vec := fun _ => 0
  rho_inv_vec := fun _ => 0
  rho := 0
  max_Ax_z_norm := 0
  max_Px_ATy_q_norm := 0
  constr_type := fun _ => ConstrType.INEQUALITY_CONSTRAINT
  info_status := Status.MAX_ITER
  info_iter := 0
  info_res_prim := 0
  info_res_dual := 0
  kkt := fun _ _ => 0
  ls_mat := fun _ _ => 0

/-- A trivial abstract linear solver returning the zero vector. -/
def lin0 (n m : ℕ) : LinSolver n m := fun _ _ _ => 0

/-- A trivial abstract square-root stand-in. -/
def sqZ : ℚ → ℚ := fun _ => 0

/-- A small well-posed 1×1 problem: `P = [1]`, `q = 0`, `A = [1]`,
`−1 ≤ x ≤ 1`. -/
def qpW : QP 1 1 where
  P := fun _ _ => 1
  q := fun _ => 0
  A := fun _ _ => 1
  l := fun _ => -1
  u := fun _ => 1

/-- An invalid problem: `l₀ = 1 > 0 = u₀`. -/
def qpBad : QP 1 1 where
  P := fun _ _ => 1
  q := fun _ => 0
  A := fun _ _ => 1
  l := fun _ => 1
  u := fun _ => 0

/-- Default settings. -/
def sW : Settings := {}

/-- Settings that check termination every iteration, with one iteration. -/
def sW2 : Settings := { max_iter := 1, check_termination := 1 }

/-- Settings with a single iteration and the default check cadence. -/
def sW7 : Settings := { max_iter := 1 }

/-- Settings with adaptive ρ on every iteration and no termination check. -/
def sW9 : Settings :=
  { check_termination := 0, adaptive_rho := true, adaptive_rho_interval := 1 }

/-- Settings with the termination check disabled and one iteration. -/
def sW10 : Settings := { max_iter := 1, check_termination := 0, adaptive_rho := false }

/-- A workspace whose classification exercises all three constraint kinds. -/
def wsC5 : Workspace 0 3 :=
  { ws0 0 3 with
    constr_type := fun i =>
      if (i : ℕ) = 0 then ConstrType.LOOSE_BOUNDS
      else if (i : ℕ) = 1 then ConstrType.EQUALITY_CONSTRAINT
      else ConstrType.INEQUALITY_CONSTRAINT }

/-- A workspace carrying prior state `x = 5`. -/
def wsC8 : Workspace 1 1 := { ws0 1 1 with x := fun _ => 5 }

/-- A workspace with unit penalty `ρ = 1`, `ρ_vec = ρ_inv_vec = 1`. -/
def wsC9 : Workspace 1 1 :=
  { ws0 1 1 with rho := 1, rho_vec := fun _ => 1, rho_inv_vec := fun _ => 1 }

/-! ### Branch characterizations of the loop body -/

lemma solve_iteration_of_term {qp : QP n m} {s : Settings} {lin : LinSolver n m}
    {sq : ℚ → ℚ} {iter : ℤ} {st : Workspace n m}
    (hc : check_cond s iter)
    (ht : termination_criteria qp s (update_state qp (admm_iteration qp s lin st))) :
    solve_iteration qp s lin sq iter st =
      ({ update_state qp (admm_iteration qp s lin st) with
          info_status := Status.SOLVED }, true) := by
  simp only [solve_iteration]
  rw [if_pos hc, if_pos ht]

lemma solve_iteration_of_noterm {qp : QP n m} {s : Settings} {lin : LinSolver n m}
    {sq : ℚ → ℚ} {iter : ℤ} {st : Workspace n m}
    (hc : check_cond s iter)
    (ht : ¬termination_criteria qp s (update_state qp (admm_iteration qp s lin st))) :
    solve_iteration qp s lin sq iter st =
      (adaptive_rho_step qp s sq iter true (update_state qp (admm_iteration qp s lin st)),
        false) := by
  simp only [solve_iteration]
  rw [if_pos hc, if_neg ht]

lemma solve_iteration_of_nocheck {qp : QP n m} {s : Settings} {lin : LinSolver n m}
    {sq : ℚ → ℚ} {iter : ℤ} {st : Workspace n m}
    (hc : ¬check_cond s iter) :
    solve_iteration qp s lin sq iter st =
      (adaptive_rho_step qp s sq iter false (admm_iteration qp s lin st), false) := by
  simp only [solve_iteration]
  rw [if_neg hc]

lemma adaptive_rho_step_off {qp : QP n m} {s : Settings} {sq : ℚ → ℚ} {iter : ℤ}
    {b : Bool} {st : Workspace n m} (h : ¬adaptive_cond s iter) :
    adaptive_rho_step qp s sq iter b st = st := by
  simp only [adaptive_rho_step]
  rw [if_neg h]

/-! ### Field preservation lemmas -/

lemma admm_iteration_fields (qp : QP n m) (s : Settings) (lin : LinSolver n m)
    (st : Workspace n m) :
    (admm_iteration qp s lin st).rho = st.rho ∧
    (admm_iteration qp s lin st).rho_vec = st.rho_vec ∧
    (admm_iteration qp s lin st).rho_inv_vec = st.rho_inv_vec ∧
    (admm_iteration qp s lin st).constr_type = st.constr_type ∧
    (admm_iteration qp s lin st).info_status = st.info_status ∧
    (admm_iteration qp s lin st).info_res_prim = st.info_res_prim ∧
    (admm_iteration qp s lin st).info_res_dual = st.info_res_dual ∧
    (admm_iteration qp s lin st).ls_mat = st.ls_mat ∧
    (admm_iteration qp s lin st).kkt = st.kkt := by
  refine ⟨rfl, rfl, rfl, rfl, rfl, rfl, rfl, rfl, rfl⟩

lemma update_state_fields (qp : QP n m) (st : Workspace n m) :
    (update_state qp st).x = st.x ∧
    (update_state qp st).z = st.z ∧
    (update_state qp st).y = st.y ∧
    (update_state qp st).rho = st.rho ∧
    (update_state qp st).rho_vec = st.rho_vec ∧
    (update_state qp st).rho_inv_vec = st.rho_inv_vec ∧
    (update_state qp st).constr_type = st.constr_type ∧
    (update_state qp st).info_status = st.info_status ∧
    (update_state qp st).ls_mat = st.ls_mat ∧
    (update_state qp st).kkt = st.kkt := by
  refine ⟨rfl, rfl, rfl, rfl, rfl, rfl, rfl, rfl, rfl, rfl⟩

lemma rho_adapt_preserve (qp : QP n m) (s : Settings) (sq : ℚ → ℚ)
    (st4 : Workspace n m) :
    (rho_adapt qp s sq st4).x = st4.x ∧
    (rho_adapt qp s sq st4).z = st4.z ∧
    (rho_adapt qp s sq st4).y = st4.y ∧
    (rho_adapt qp s sq st4).z_tilde = st4.z_tilde ∧
    (rho_adapt qp s sq st4).z_prev = st4.z_prev ∧
    (rho_adapt qp s sq st4).constr_type = st4.constr_type ∧
    (rho_adapt qp s sq st4).info_status = st4.info_status ∧
    (rho_adapt qp s sq st4).info_res_prim = st4.info_res_prim ∧
    (rho_adapt qp s sq st4).info_res_dual = st4.info_res_dual := by
  unfold rho_adapt
  split
  · exact ⟨rfl, rfl, rfl, rfl, rfl, rfl, rfl, rfl, rfl⟩
  · exact ⟨rfl, rfl, rfl, rfl, rfl, rfl, rfl, rfl, rfl⟩

lemma adaptive_rho_step_preserve (qp : QP n m) (s : Settings) (sq : ℚ → ℚ)
    (iter : ℤ) (b : Bool) (st : Workspace n m) :
    (adaptive_rho_step qp s sq iter b st).x = st.x ∧
    (adaptive_rho_step qp s sq iter b st).z = st.z ∧
    (adaptive_rho_step qp s sq iter b st).y = st.y ∧
    (adaptive_rho_step qp s sq iter b st).z_tilde = st.z_tilde ∧
    (adaptive_rho_step qp s sq iter b st).z_prev = st.z_prev ∧
    (adaptive_rho_step qp s sq iter b st).constr_type = st.constr_type ∧
    (adaptive_rho_step qp s sq iter b st).info_status = st.info_status := by
  by_cases hA : adaptive_cond s iter
  · unfold adaptive_rho_step
    rw [if_pos hA]
    obtain ⟨h1, h2, h3, h4, h5, h6, h7, _, _⟩ :=
      rho_adapt_preserve qp s sq (if b then st else update_state qp st)
    rw [h1, h2, h3, h4, h5, h6, h7]
    cases b
    · exact ⟨rfl, rfl, rfl, rfl, rfl, rfl, rfl⟩
    · exact ⟨rfl, rfl, rfl, rfl, rfl, rfl, rfl⟩
  · rw [adaptive_rho_step_off hA]
    exact ⟨rfl, rfl, rfl, rfl, rfl, rfl, rfl⟩

lemma solve_iteration_preserve (qp : QP n m) (s : Settings) (lin : LinSolver n m)
    (sq : ℚ → ℚ) (iter : ℤ) (st : Workspace n m) :
    (solve_iteration qp s lin sq iter st).1.constr_type = st.constr_type ∧
    (solve_iteration qp s lin sq iter st).1.z = (admm_iteration qp s lin st).z ∧
    (solve_iteration qp s lin sq iter st).1.x = (admm_iteration qp s lin st).x ∧
    (solve_iteration qp s lin sq iter st).1.y = (admm_iteration qp s lin st).y := by
  by_cases hc : check_cond s iter
  · by_cases ht :
      termination_criteria qp s (update_state qp (admm_iteration qp s lin st))
    · rw [solve_iteration_of_term hc ht]
      exact ⟨rfl, rfl, rfl, rfl⟩
    · rw [solve_iteration_of_noterm hc ht]
      obtain ⟨hx, hz, hy, _, _, hct, _⟩ :=
        adaptive_rho_step_preserve qp s sq iter true
          (update_state qp (admm_iteration qp s lin st))
      exact ⟨hct, hz, hx, hy⟩
  · rw [solve_iteration_of_nocheck hc]
    obtain ⟨hx, hz, hy, _, _, hct, _⟩ :=
      adaptive_rho_step_preserve qp s sq iter false (admm_iteration qp s lin st)
    exact ⟨hct, hz, hx, hy⟩

/-- For bounds with `l ≤ u`, the code's clamp `min (max a l) u` agrees
with the spec's `max l (min u a)`. -/
lemma min_max_eq_max_min (a l u : ℚ) (h : l ≤ u) :
    min (max a l) u = max l (min u a) := by
  rcases le_total a l with h1 | h1
  · rw [max_eq_right h1, min_eq_left h,
      max_eq_left (le_trans (min_le_right u a) h1)]
  · rw [max_eq_left h1]
    rcases le_total a u with h2 | h2
    · rw [min_eq_left h2, min_eq_right h2, max_eq_right h1]
    · rw [min_eq_right h2, min_eq_left h2, max_eq_right h]

/-! ### Claim C1 -/

/-- C1: every iteration of `solve` performs exactly the §4.5 updates:
after solving `M·w = rhs` and splitting `w = (x̃, ν)`, the body sets
`z̃ = z_prev + ρ⁻¹ ⊙ (ν − y)`, then `x = α·x̃ + (1−α)·x`, then
`z = α·z̃ + (1−α)·z_prev + ρ⁻¹ ⊙ y` followed by the box projection
`z = max(l, min(u, z))`, then `y = y + ρ_vec ⊙ (α·z̃ + (1−α)·z_prev − z)`,
where `z_prev` is the `z` at the start of the iteration.  The projection
formula of the claim requires `l ≤ u` (the code computes
`min (max (·) l) u`, which agrees with `max l (min u (·))` on valid
bounds). -/
theorem c1_admm_iteration_follows_spec (qp : QP n m) (s : Settings)
    (lin : LinSolver n m) (st : Workspace n m)
    (hlu : ∀ i, qp.l i ≤ qp.u i) :
    (admm_iteration qp s lin st).z_prev = st.z ∧
    (admm_iteration qp s lin st).x_tilde =
      headN (lin st.ls_mat (form_KKT_rhs qp s st)) ∧
    (admm_iteration qp s lin st).z_tilde = (fun i =>
      st.z i + st.rho_inv_vec i *
        (tailM (lin st.ls_mat (form_KKT_rhs qp s st)) i - st.y i)) ∧
    (admm_iteration qp s lin st).x = (fun j =>
      s.alpha * headN (lin st.ls_mat (form_KKT_rhs qp s st)) j +
        (1 - s.alpha) * st.x j) ∧
    (admm_iteration qp s lin st).z = (fun i =>
      max (qp.l i) (min (qp.u i)
        (s.alpha * (admm_iteration qp s lin st).z_tilde i +
          (1 - s.alpha) * st.z i + st.rho_inv_vec i * st.y i))) ∧
    (admm_iteration qp s lin st).y = (fun i =>
      st.y i + st.rho_vec i *
        (s.alpha * (admm_iteration qp s lin st).z_tilde i +
          (1 - s.alpha) * st.z i - (admm_iteration qp s lin st).z i)) := by
  refine ⟨rfl, rfl, rfl, rfl, ?_, rfl⟩
  funext i
  exact min_max_eq_max_min _ _ _ (hlu i)

/-! ### Claim C3 -/

/-- C3: on a problem with `l ≤ u` componentwise, the slack `z` lies in
`[l, u]` componentwise right after the box projection of step 5, and the
rest of the loop body (termination check, adaptive-ρ block) does not
overwrite `z`, so the bound persists until the next iteration writes
`z`. -/
theorem c3_z_within_bounds_after_projection (qp : QP n m) (s : Settings)
    (lin : LinSolver n m) (sq : ℚ → ℚ) (iter : ℤ) (st : Workspace n m)
    (hlu : ∀ i, qp.l i ≤ qp.u i) :
    (∀ i, qp.l i ≤ (admm_iteration qp s lin st).z i ∧
      (admm_iteration qp s lin st).z i ≤ qp.u i) ∧
    (solve_iteration qp s lin sq iter st).1.z = (admm_iteration qp s lin st).z := by
  constructor
  · intro i
    constructor
    · exact le_min (le_max_right _ _) (hlu i)
    · exact min_le_right _ _
  · exact (solve_iteration_preserve qp s lin sq iter st).2.1

/-! ### Loop unrolling and invariants -/

lemma run_loop_zero (qp : QP n m) (s : Settings) (lin : LinSolver n m) (sq : ℚ → ℚ)
    (iter : ℤ) (st : Workspace n m) :
    run_loop qp s lin sq 0 iter st = (st, iter, false) := rfl

lemma run_loop_succ (qp : QP n m) (s : Settings) (lin : LinSolver n m) (sq : ℚ → ℚ)
    (fuel : ℕ) (iter : ℤ) (st : Workspace n m) :
    run_loop qp s lin sq (fuel + 1) iter st =
      if (solve_iteration qp s lin sq iter st).2 then
        ((solve_iteration qp s lin sq iter st).1, iter, true)
      else
        run_loop qp s lin sq fuel (iter + 1) (solve_iteration qp s lin sq iter st).1 := rfl

lemma run_loop_constr (qp : QP n m) (s : Settings) (lin : LinSolver n m) (sq : ℚ → ℚ) :
    ∀ (fuel : ℕ) (iter : ℤ) (st : Workspace n m),
      (run_loop qp s lin sq fuel iter st).1.constr_type = st.constr_type := by
  intro fuel
  induction fuel with
  | zero => intro iter st; rfl
  | succ k ih =>
    intro iter st
    rw [run_loop_succ]
    by_cases hb : (solve_iteration qp s lin sq iter st).2 = true
    · rw [if_pos hb]
      exact (solve_iteration_preserve qp s lin sq iter st).1
    · rw [if_neg hb]
      rw [ih (iter + 1) (solve_iteration qp s lin sq iter st).1]
      exact (solve_iteration_preserve qp s lin sq iter st).1

lemma solve_prep_constr (qp : QP n m) (s : Settings) (st : Workspace n m) :
    (solve_prep qp s st).constr_type = fun i => classify (qp.l i) (qp.u i) := rfl

lemma solve_constr (qp : QP n m) (s : Settings) (lin : LinSolver n m) (sq : ℚ → ℚ)
    (st : Workspace n m) :
    (solve qp s lin sq st).constr_type = fun i => classify (qp.l i) (qp.u i) := by
  show (if s.max_iter < (run_loop qp s lin sq s.max_iter.toNat 1 (solve_prep qp s st)).2.1
      then { (run_loop qp s lin sq s.max_iter.toNat 1 (solve_prep qp s st)).1 with
              info_status := Status.MAX_ITER }
      else (run_loop qp s lin sq s.max_iter.toNat 1 (solve_prep qp s st)).1).constr_type =
    fun i => classify (qp.l i) (qp.u i)
  split
  · rw [show ({ (run_loop qp s lin sq s.max_iter.toNat 1 (solve_prep qp s st)).1 with
        info_status := Status.MAX_ITER } : Workspace n m).constr_type =
        (run_loop qp s lin sq s.max_iter.toNat 1 (solve_prep qp s st)).1.constr_type from rfl,
      run_loop_constr, solve_prep_constr]
  · rw [run_loop_constr, solve_prep_constr]

/-! ### Claim C4 -/

/-- C4: the classifier run by `solve` assigns LOOSE_BOUNDS exactly when
`lᵢ < −1e16` and `uᵢ > 1e16` (strict), otherwise EQUALITY exactly when
`uᵢ − lᵢ < 1e−4`, otherwise INEQUALITY; the classification stored by
`solve` is exactly that per-row classification of `(l, u)`, and a loop
iteration never changes it. -/
theorem c4_constraint_classification (qp : QP n m) (s : Settings)
    (lin : LinSolver n m) (sq : ℚ → ℚ) (iter : ℤ) (st : Workspace n m) :
    ((solve qp s lin sq st).constr_type = fun i => classify (qp.l i) (qp.u i)) ∧
    ((solve_iteration qp s lin sq iter st).1.constr_type = st.constr_type) ∧
    (∀ a b : ℚ,
      (classify a b = ConstrType.LOOSE_BOUNDS ↔
        a < -LOOSE_BOUNDS_THRESH ∧ LOOSE_BOUNDS_THRESH < b) ∧
      (classify a b = ConstrType.EQUALITY_CONSTRAINT ↔
        ¬(a < -LOOSE_BOUNDS_THRESH ∧ LOOSE_BOUNDS_THRESH < b) ∧ b - a < RHO_TOL) ∧
      (classify a b = ConstrType.INEQUALITY_CONSTRAINT ↔
        ¬(a < -LOOSE_BOUNDS_THRESH ∧ LOOSE_BOUNDS_THRESH < b) ∧
          ¬(b - a < RHO_TOL))) := by
  refine ⟨solve_constr qp s lin sq st,
    (solve_iteration_preserve qp s lin sq iter st).1, ?_⟩
  intro a b
  unfold classify
  split_ifs with h1 h2
  · refine ⟨?_, ?_, ?_⟩ <;> simp [h1]
  · refine ⟨?_, ?_, ?_⟩ <;> simp [h1, h2]
  · refine ⟨?_, ?_, ?_⟩ <;> simp [h1, h2]

/-! ### Claim C6 -/

/-- C6: the assembled KKT matrix has top-left block `P + σ·I`, top-right
block `Aᵀ` (always populated, see `KKT_assemble`), bottom-left block `A`
and bottom-right block `−diag(ρ⁻¹)`; and the assembled right-hand side is
`σ·x − q` stacked on `z − ρ⁻¹ ⊙ y` at the current state.  Block indices
are written with `Fin.castAdd` (first `n` rows/columns) and `Fin.natAdd`
(last `m` rows/columns). -/
theorem c6_kkt_assembly_blocks (qp : QP n m) (s : Settings) (st : Workspace n m) :
    ((KKT_mat_update qp s st).kkt = KKT_assemble qp s.sigma st.rho_inv_vec) ∧
    (∀ i j : Fin n,
      KKT_assemble qp s.sigma st.rho_inv_vec (Fin.castAdd m i) (Fin.castAdd m j) =
        qp.P i j + (if i = j then s.sigma else 0)) ∧
    (∀ (i : Fin n) (j : Fin m),
      KKT_assemble qp s.sigma st.rho_inv_vec (Fin.castAdd m i) (Fin.natAdd n j) =
        qp.A j i) ∧
    (∀ (i : Fin m) (j : Fin n),
      KKT_assemble qp s.sigma st.rho_inv_vec (Fin.natAdd n i) (Fin.castAdd m j) =
        qp.A i j) ∧
    (∀ i j : Fin m,
      KKT_assemble qp s.sigma st.rho_inv_vec (Fin.natAdd n i) (Fin.natAdd n j) =
        if i = j then -st.rho_inv_vec i else 0) ∧
    (∀ j : Fin n, form_KKT_rhs qp s st (Fin.castAdd m j) =
      s.sigma * st.x j - qp.q j) ∧
    (∀ i : Fin m, form_KKT_rhs qp s st (Fin.natAdd n i) =
      st.z i - st.rho_inv_vec i * st.y i) := by
  have hlt : ∀ j : Fin n, ((Fin.castAdd m j : Fin (n + m)) : ℕ) < n := fun j => j.isLt
  have hge : ∀ i : Fin m, ¬((Fin.natAdd n i : Fin (n + m)) : ℕ) < n := by
    intro i
    simp [Fin.natAdd]
  have hsub : ∀ i : Fin m,
      (⟨((Fin.natAdd n i : Fin (n + m)) : ℕ) - n, by
        have h := i.isLt
        simp only [Fin.coe_natAdd]
        omega⟩ : Fin m) = i := by
    intro i
    apply Fin.ext
    simp [Fin.natAdd]
  refine ⟨rfl, ?_, ?_, ?_, ?_, ?_, ?_⟩
  · intro i j
    unfold KKT_assemble
    rw [dif_pos (hlt i), dif_pos (hlt j)]
    simp [Fin.ext_iff]
  · intro i j
    unfold KKT_assemble
    rw [dif_pos (hlt i)]
    rw [dif_neg (hge j)]
    rw [hsub j]
    simp
  · intro i j
    unfold KKT_assemble
    rw [dif_neg (hge i), dif_pos (hlt j)]
    rw [hsub i]
    simp
  · intro i j
    unfold KKT_assemble
    rw [dif_neg (hge i)]
    rw [dif_neg (hge j)]
    rw [hsub i]
    congr 1
    simp [Fin.natAdd, Fin.ext_iff]
  · intro j
    unfold form_KKT_rhs
    rw [dif_pos (hlt j)]
    simp
  · intro i
    unfold form_KKT_rhs
    rw [dif_neg (hge i)]
    rw [hsub i]

/-! ### Break and exhaustion behaviour of the loop -/

lemma solve_iteration_broke (qp : QP n m) (s : Settings) (lin : LinSolver n m)
    (sq : ℚ → ℚ) (iter : ℤ) (st : Workspace n m)
    (h : (solve_iteration qp s lin sq iter st).2 = true) :
    (solve_iteration qp s lin sq iter st).1.info_status = Status.SOLVED ∧
    residual_prim qp (solve_iteration qp s lin sq iter st).1 ≤
      eps_prim qp s (solve_iteration qp s lin sq iter st).1 ∧
    residual_dual qp (solve_iteration qp s lin sq iter st).1 ≤
      eps_dual qp s (solve_iteration qp s lin sq iter st).1 := by
  by_cases hc : check_cond s iter
  · by_cases ht :
      termination_criteria qp s (update_state qp (admm_iteration qp s lin st))
    · rw [solve_iteration_of_term hc ht]
      exact ⟨rfl, ht.1, ht.2⟩
    · rw [solve_iteration_of_noterm hc ht] at h
      simp at h
  · rw [solve_iteration_of_nocheck hc] at h
    simp at h

lemma run_loop_iter_of_not_broke (qp : QP n m) (s : Settings) (lin : LinSolver n m)
    (sq : ℚ → ℚ) :
    ∀ (fuel : ℕ) (iter : ℤ) (st : Workspace n m),
      (run_loop qp s lin sq fuel iter st).2.2 = false →
      (run_loop qp s lin sq fuel iter st).2.1 = iter + fuel := by
  intro fuel
  induction fuel with
  | zero => intro iter st _; simp [run_loop_zero]
  | succ k ih =>
    intro iter st h
    rw [run_loop_succ] at h ⊢
    by_cases hb : (solve_iteration qp s lin sq iter st).2 = true
    · rw [if_pos hb] at h
      simp at h
    · rw [if_neg hb] at h ⊢
      rw [ih (iter + 1) (solve_iteration qp s lin sq iter st).1 h]
      push_cast
      ring

lemma run_loop_broke (qp : QP n m) (s : Settings) (lin : LinSolver n m)
    (sq : ℚ → ℚ) :
    ∀ (fuel : ℕ) (iter : ℤ) (st : Workspace n m),
      (run_loop qp s lin sq fuel iter st).2.2 = true →
      ((run_loop qp s lin sq fuel iter st).1.info_status = Status.SOLVED ∧
        residual_prim qp (run_loop qp s lin sq fuel iter st).1 ≤
          eps_prim qp s (run_loop qp s lin sq fuel iter st).1 ∧
        residual_dual qp (run_loop qp s lin sq fuel iter st).1 ≤
          eps_dual qp s (run_loop qp s lin sq fuel iter st).1) ∧
      iter ≤ (run_loop qp s lin sq fuel iter st).2.1 ∧
      (run_loop qp s lin sq fuel iter st).2.1 < iter + fuel := by
  intro fuel
  induction fuel with
  | zero => intro iter st h; simp [run_loop_zero] at h
  | succ k ih =>
    intro iter st h
    rw [run_loop_succ] at h ⊢
    by_cases hb : (solve_iteration qp s lin sq iter st).2 = true
    · rw [if_pos hb] at h ⊢
      refine ⟨solve_iteration_broke qp s lin sq iter st hb, le_refl _, ?_⟩
      have : (0 : ℤ) < (k : ℤ) + 1 := by positivity
      push_cast
      omega
    · rw [if_neg hb] at h ⊢
      obtain ⟨hbounds, h1, h2⟩ := ih (iter + 1) (solve_iteration qp s lin sq iter st).1 h
      refine ⟨hbounds, by omega, by push_cast at h2 ⊢; omega⟩

/-! ### Claim C2 -/

/-- C2: whenever `solve` returns with `status = SOLVED`, the final
iterates satisfy `‖Ax − z‖∞ ≤ ε_abs + ε_rel·max(‖Ax‖∞, ‖z‖∞)` and
`‖Px + q + Aᵀy‖∞ ≤ ε_abs + ε_rel·max(‖Px‖∞, ‖Aᵀy‖∞, ‖q‖∞)`. -/
theorem c2_solved_satisfies_tolerances (qp : QP n m) (s : Settings)
    (lin : LinSolver n m) (sq : ℚ → ℚ) (st : Workspace n m)
    (h : (solve qp s lin sq st).info_status = Status.SOLVED) :
    infNorm (fun i =>
        matVec qp.A (solve qp s lin sq st).x i - (solve qp s lin sq st).z i) ≤
      s.eps_abs + s.eps_rel *
        max (infNorm (matVec qp.A (solve qp s lin sq st).x))
          (infNorm (solve qp s lin sq st).z) ∧
    infNorm (fun j =>
        matVec qp.P (solve qp s lin sq st).x j + qp.q j +
          matTVec qp.A (solve qp s lin sq st).y j) ≤
      s.eps_abs + s.eps_rel *
        max (infNorm (matVec qp.P (solve qp s lin sq st).x))
          (max (infNorm (matTVec qp.A (solve qp s lin sq st).y)) (infNorm qp.q)) := by
  suffices hs : residual_prim qp (solve qp s lin sq st) ≤
      eps_prim qp s (solve qp s lin sq st) ∧
      residual_dual qp (solve qp s lin sq st) ≤
        eps_dual qp s (solve qp s lin sq st) by
    exact hs
  simp only [solve] at h ⊢
  by_cases hlt :
    s.max_iter < (run_loop qp s lin sq s.max_iter.toNat 1 (solve_prep qp s st)).2.1
  · rw [if_pos hlt] at h
    exact Status.noConfusion h
  · rw [if_neg hlt] at h ⊢
    by_cases hb :
      (run_loop qp s lin sq s.max_iter.toNat 1 (solve_prep qp s st)).2.2 = true
    · obtain ⟨⟨_, hp, hd⟩, _, _⟩ :=
        run_loop_broke qp s lin sq s.max_iter.toNat 1 (solve_prep qp s st) hb
      exact ⟨hp, hd⟩
    · exfalso
      rw [Bool.not_eq_true] at hb
      have hiter := run_loop_iter_of_not_broke qp s lin sq s.max_iter.toNat 1
        (solve_prep qp s st) hb
      have hmono := Int.self_le_toNat s.max_iter
      omega

/-! ### Claim C7 -/

/-- C7: when the loop exhausts the iteration budget without the
termination `break` firing, `solve` reports `status = MAX_ITER` with
`info.iter = max_iter + 1`, the counter value after the final
increment. -/
theorem c7_max_iter_exhaustion (qp : QP n m) (s : Settings)
    (lin : LinSolver n m) (sq : ℚ → ℚ) (st : Workspace n m)
    (h1 : 1 ≤ s.max_iter)
    (h2 : (run_loop qp s lin sq s.max_iter.toNat 1 (solve_prep qp s st)).2.2 = false) :
    (solve qp s lin sq st).info_status = Status.MAX_ITER ∧
    (solve qp s lin sq st).info_iter = s.max_iter + 1 := by
  have hiter := run_loop_iter_of_not_broke qp s lin sq s.max_iter.toNat 1
    (solve_prep qp s st) h2
  have hmono := Int.self_le_toNat s.max_iter
  have hlt :
      s.max_iter < (run_loop qp s lin sq s.max_iter.toNat 1 (solve_prep qp s st)).2.1 := by
    omega
  simp only [solve]
  rw [if_pos hlt]
  refine ⟨rfl, ?_⟩
  show (run_loop qp s lin sq s.max_iter.toNat 1 (solve_prep qp s st)).2.1 = s.max_iter + 1
  omega

/-! ### Claim C10 -/

lemma solve_iteration_plain (qp : QP n m) (s : Settings) (lin : LinSolver n m)
    (sq : ℚ → ℚ) (iter : ℤ) (st : Workspace n m)
    (h0 : s.check_termination = 0) (hA : s.adaptive_rho = false) :
    solve_iteration qp s lin sq iter st = (admm_iteration qp s lin st, false) := by
  have hc : ¬check_cond s iter := fun hcc => hcc.1 h0
  have hac : ¬adaptive_cond s iter := fun hacc => by
    have h := hacc.1
    rw [hA] at h
    exact Bool.noConfusion h
  rw [solve_iteration_of_nocheck hc, adaptive_rho_step_off hac]

lemma run_loop_plain (qp : QP n m) (s : Settings) (lin : LinSolver n m)
    (sq : ℚ → ℚ) (h0 : s.check_termination = 0) (hA : s.adaptive_rho = false) :
    ∀ (fuel : ℕ) (iter : ℤ) (st : Workspace n m),
      (run_loop qp s lin sq fuel iter st).2.2 = false ∧
      (run_loop qp s lin sq fuel iter st).1.info_res_prim = st.info_res_prim ∧
      (run_loop qp s lin sq fuel iter st).1.info_res_dual = st.info_res_dual := by
  intro fuel
  induction fuel with
  | zero => intro iter st; exact ⟨rfl, rfl, rfl⟩
  | succ k ih =>
    intro iter st
    rw [run_loop_succ, solve_iteration_plain qp s lin sq iter st h0 hA]
    obtain ⟨hb, hp, hd⟩ := ih (iter + 1) (admm_iteration qp s lin st)
    exact ⟨hb, hp, hd⟩

lemma solve_prep_info_res (qp : QP n m) (s : Settings) (st : Workspace n m) :
    (solve_prep qp s st).info_res_prim = st.info_res_prim ∧
    (solve_prep qp s st).info_res_dual = st.info_res_dual := by
  simp only [solve_prep]
  cases hw : s.warm_start
  · exact ⟨rfl, rfl⟩
  · exact ⟨rfl, rfl⟩

/-- C10: with `check_termination = 0` and `adaptive_rho` disabled, the
termination criterion is never evaluated: `solve` always runs all
`max_iter` iterations and returns `status = MAX_ITER` with
`info.iter = max_iter + 1`, and `info.res_prim`, `info.res_dual` are
never written during that solve. -/
theorem c10_disabled_termination_check (qp : QP n m) (s : Settings)
    (lin : LinSolver n m) (sq : ℚ → ℚ) (st : Workspace n m)
    (h0 : s.check_termination = 0) (hA : s.adaptive_rho = false)
    (h1 : 1 ≤ s.max_iter) :
    (solve qp s lin sq st).info_status = Status.MAX_ITER ∧
    (solve qp s lin sq st).info_iter = s.max_iter + 1 ∧
    (solve qp s lin sq st).info_res_prim = st.info_res_prim ∧
    (solve qp s lin sq st).info_res_dual = st.info_res_dual := by
  obtain ⟨hb, hp, hd⟩ :=
    run_loop_plain qp s lin sq h0 hA s.max_iter.toNat 1 (solve_prep qp s st)
  have hiter := run_loop_iter_of_not_broke qp s lin sq s.max_iter.toNat 1
    (solve_prep qp s st) hb
  have hmono := Int.self_le_toNat s.max_iter
  have hlt :
      s.max_iter < (run_loop qp s lin sq s.max_iter.toNat 1 (solve_prep qp s st)).2.1 := by
    omega
  simp only [solve]
  rw [if_pos hlt]
  refine ⟨rfl, ?_, ?_, ?_⟩
  · show (run_loop qp s lin sq s.max_iter.toNat 1 (solve_prep qp s st)).2.1 =
      s.max_iter + 1
    omega
  · exact hp.trans (solve_prep_info_res qp s st).1
  · exact hd.trans (solve_prep_info_res qp s st).2

/-! ### Claim C9 -/

lemma adaptive_rho_step_checked (qp : QP n m) (s : Settings) (sq : ℚ → ℚ)
    (iter : ℤ) (st : Workspace n m) (hAC : adaptive_cond s iter) :
    adaptive_rho_step qp s sq iter true st = rho_adapt qp s sq st := by
  simp only [adaptive_rho_step]
  rw [if_pos hAC]
  rfl

lemma adaptive_rho_step_unchecked (qp : QP n m) (s : Settings) (sq : ℚ → ℚ)
    (iter : ℤ) (st : Workspace n m) (hAC : adaptive_cond s iter) :
    adaptive_rho_step qp s sq iter false st =
      rho_adapt qp s sq (update_state qp st) := by
  simp only [adaptive_rho_step]
  rw [if_pos hAC]
  rfl

lemma rho_adapt_trigger_eq (qp : QP n m) (s : Settings) (sq : ℚ → ℚ)
    (st4 : Workspace n m) (htr : rho_trigger s st4 (new_rho_of sq st4)) :
    rho_adapt qp s sq st4 =
      linear_solver_factorize
        (KKT_mat_update qp s (rho_update (new_rho_of sq st4) st4)) := by
  simp only [rho_adapt]
  rw [if_pos htr]

lemma rho_adapt_no_trigger_eq (qp : QP n m) (s : Settings) (sq : ℚ → ℚ)
    (st4 : Workspace n m) (htr : ¬rho_trigger s st4 (new_rho_of sq st4)) :
    rho_adapt qp s sq st4 = st4 := by
  simp only [rho_adapt]
  rw [if_neg htr]

/-- C9: during a solve with `adaptive_rho` enabled, `ρ` and `ρ_vec`
change during a loop iteration only when the counter is a multiple of
`adaptive_rho_interval` and the clamped estimate
`ρ_new = clamp(ρ·sq(r̃_p/(r̃_d + ζ)), 1e−6, 1e6)` (evaluated on the
refreshed state after the step-6 updates) moves by more than the
`adaptive_rho_tolerance` factor; and in that case the new values are
exactly the `rho_update(ρ_new)` schedule and the linear solver is handed
the freshly assembled KKT matrix built from the new `ρ⁻¹`. -/
theorem c9_adaptive_rho_cadence (qp : QP n m) (s : Settings)
    (lin : LinSolver n m) (sq : ℚ → ℚ) (iter : ℤ) (st : Workspace n m)
    (hA : s.adaptive_rho = true)
    (hchange :
      (solve_iteration qp s lin sq iter st).1.rho ≠ st.rho ∨
        (solve_iteration qp s lin sq iter st).1.rho_vec ≠ st.rho_vec) :
    iter % s.adaptive_rho_interval = 0 ∧
    rho_trigger s (update_state qp (admm_iteration qp s lin st))
      (new_rho_of sq (update_state qp (admm_iteration qp s lin st))) ∧
    new_rho_of sq (update_state qp (admm_iteration qp s lin st)) =
      max RHO_MIN (min (rho_estimate sq st.rho
        (update_state qp (admm_iteration qp s lin st))) RHO_MAX) ∧
    (solve_iteration qp s lin sq iter st).1.rho =
      new_rho_of sq (update_state qp (admm_iteration qp s lin st)) ∧
    (solve_iteration qp s lin sq iter st).1.rho_vec =
      rho_vec_of st.constr_type
        (new_rho_of sq (update_state qp (admm_iteration qp s lin st))) ∧
    (solve_iteration qp s lin sq iter st).1.ls_mat =
      KKT_assemble qp s.sigma (fun i =>
        (rho_vec_of st.constr_type
          (new_rho_of sq (update_state qp (admm_iteration qp s lin st))) i)⁻¹) := by
  by_cases hAC : adaptive_cond s iter
  · by_cases hc : check_cond s iter
    · by_cases ht :
        termination_criteria qp s (update_state qp (admm_iteration qp s lin st))
      · rw [solve_iteration_of_term hc ht] at hchange
        rcases hchange with h | h <;> exact absurd rfl h
      · rw [solve_iteration_of_noterm hc ht] at hchange ⊢
        rw [adaptive_rho_step_checked qp s sq iter _ hAC] at hchange ⊢
        by_cases htr : rho_trigger s (update_state qp (admm_iteration qp s lin st))
            (new_rho_of sq (update_state qp (admm_iteration qp s lin st)))
        · rw [rho_adapt_trigger_eq qp s sq _ htr]
          exact ⟨hAC.2, htr, rfl, rfl, rfl, rfl⟩
        · rw [rho_adapt_no_trigger_eq qp s sq _ htr] at hchange
          rcases hchange with h | h <;> exact absurd rfl h
    · rw [solve_iteration_of_nocheck hc] at hchange ⊢
      rw [adaptive_rho_step_unchecked qp s sq iter _ hAC] at hchange ⊢
      by_cases htr : rho_trigger s (update_state qp (admm_iteration qp s lin st))
          (new_rho_of sq (update_state qp (admm_iteration qp s lin st)))
      · rw [rho_adapt_trigger_eq qp s sq _ htr]
        exact ⟨hAC.2, htr, rfl, rfl, rfl, rfl⟩
      · rw [rho_adapt_no_trigger_eq qp s sq _ htr] at hchange
        rcases hchange with h | h <;> exact absurd rfl h
  · exfalso
    by_cases hc : check_cond s iter
    · by_cases ht :
        termination_criteria qp s (update_state qp (admm_iteration qp s lin st))
      · rw [solve_iteration_of_term hc ht] at hchange
        rcases hchange with h | h <;> exact absurd rfl h
      · rw [solve_iteration_of_noterm hc ht] at hchange
        rw [adaptive_rho_step_off hAC] at hchange
        rcases hchange with h | h <;> exact absurd rfl h
    · rw [solve_iteration_of_nocheck hc] at hchange
      rw [adaptive_rho_step_off hAC] at hchange
      rcases hchange with h | h <;> exact absurd rfl h

/-! ### Claim C5 -/

/-- C5: for `ρ₀ > 0`, `rho_update(ρ₀)` assigns `ρ_vec[i] = 1e−6` on
LOOSE_BOUNDS rows, `10³·ρ₀` on EQUALITY rows and `ρ₀` on INEQUALITY
rows, sets `ρ_inv_vec` to the elementwise reciprocal `1/ρ_vec`, keeps
every `ρ_vec[i]` positive, and stores the scalar `ρ = ρ₀`. -/
theorem c5_rho_update_schedule (rho0 : ℚ) (h : 0 < rho0) (st : Workspace n m) :
    (∀ i,
      (st.constr_type i = ConstrType.LOOSE_BOUNDS →
        (rho_update rho0 st).rho_vec i = RHO_MIN) ∧
      (st.constr_type i = ConstrType.EQUALITY_CONSTRAINT →
        (rho_update rho0 st).rho_vec i = RHO_EQ_FACTOR * rho0) ∧
      (st.constr_type i = ConstrType.INEQUALITY_CONSTRAINT →
        (rho_update rho0 st).rho_vec i = rho0)) ∧
    (∀ i, (rho_update rho0 st).rho_inv_vec i = 1 / (rho_update rho0 st).rho_vec i) ∧
    (∀ i, 0 < (rho_update rho0 st).rho_vec i) ∧
    (rho_update rho0 st).rho = rho0 := by
  refine ⟨?_, ?_, ?_, rfl⟩
  · intro i
    refine ⟨fun h1 => ?_, fun h1 => ?_, fun h1 => ?_⟩ <;>
      simp [rho_update, rho_vec_of, h1]
  · intro i
    simp [rho_update, one_div]
  · intro i
    cases hct : st.constr_type i
    · simpa [rho_update, rho_vec_of, hct] using h
    · have : (0 : ℚ) < RHO_EQ_FACTOR * rho0 := by
        have : (0 : ℚ) < RHO_EQ_FACTOR := by norm_num [RHO_EQ_FACTOR]
        positivity
      simpa [rho_update, rho_vec_of, hct] using this
    · have : (0 : ℚ) < RHO_MIN := by norm_num [RHO_MIN]
      simpa [rho_update, rho_vec_of, hct] using this

/-! ### Claim C8 -/

/-- C8 (amended): `solve` performs no validity check on the settings or
the problem.  For every input — valid or not — it unconditionally runs
the normal pipeline: the classifier is executed and its result stored,
and the iteration counter is written (`info.iter ≥ 1`); no error is ever
surfaced and prior state is overwritten as usual. -/
theorem c8_solve_runs_unconditionally (qp : QP n m) (s : Settings)
    (lin : LinSolver n m) (sq : ℚ → ℚ) (st : Workspace n m) :
    (solve qp s lin sq st).constr_type = (fun i => classify (qp.l i) (qp.u i)) ∧
    1 ≤ (solve qp s lin sq st).info_iter := by
  refine ⟨solve_constr qp s lin sq st, ?_⟩
  simp only [solve]
  show 1 ≤ (run_loop qp s lin sq s.max_iter.toNat 1 (solve_prep qp s st)).2.1
  by_cases hb :
    (run_loop qp s lin sq s.max_iter.toNat 1 (solve_prep qp s st)).2.2 = true
  · exact (run_loop_broke qp s lin sq s.max_iter.toNat 1 (solve_prep qp s st) hb).2.1
  · rw [Bool.not_eq_true] at hb
    have h := run_loop_iter_of_not_broke qp s lin sq s.max_iter.toNat 1
      (solve_prep qp s st) hb
    omega

/-- C8 counterexample: on the invalid problem `qpBad` (whose bounds
satisfy `u₀ < l₀`) with valid settings, `solve` is not surfaced as an
error without mutating prior state: it runs its full iteration budget
(`info.iter = 2`) and overwrites the prior iterate `x = 5`. -/
theorem c8_no_validation_counterexample :
    qpBad.u 0 < qpBad.l 0 ∧
    (solve qpBad sW7 (lin0 1 1) sqZ wsC8).info_iter = 2 ∧
    (solve qpBad sW7 (lin0 1 1) sqZ wsC8).x 0 ≠ wsC8.x 0 := by
  refine ⟨?_, ?_, ?_⟩ <;> with_unfolding_all decide

/-! ### Witnesses -/

/-- Witness for C1 at the concrete problem `qpW`. -/
theorem c1_witness :
    (∀ i : Fin 1, qpW.l i ≤ qpW.u i) ∧
    ((admm_iteration qpW sW (lin0 1 1) (ws0 1 1)).z_prev = (ws0 1 1).z ∧
    (admm_iteration qpW sW (lin0 1 1) (ws0 1 1)).x_tilde =
      headN (lin0 1 1 (ws0 1 1).ls_mat (form_KKT_rhs qpW sW (ws0 1 1))) ∧
    (admm_iteration qpW sW (lin0 1 1) (ws0 1 1)).z_tilde = (fun i =>
      (ws0 1 1).z i + (ws0 1 1).rho_inv_vec i *
        (tailM (lin0 1 1 (ws0 1 1).ls_mat (form_KKT_rhs qpW sW (ws0 1 1))) i -
          (ws0 1 1).y i)) ∧
    (admm_iteration qpW sW (lin0 1 1) (ws0 1 1)).x = (fun j =>
      sW.alpha * headN (lin0 1 1 (ws0 1 1).ls_mat (form_KKT_rhs qpW sW (ws0 1 1))) j +
        (1 - sW.alpha) * (ws0 1 1).x j) ∧
    (admm_iteration qpW sW (lin0 1 1) (ws0 1 1)).z = (fun i =>
      max (qpW.l i) (min (qpW.u i)
        (sW.alpha * (admm_iteration qpW sW (lin0 1 1) (ws0 1 1)).z_tilde i +
          (1 - sW.alpha) * (ws0 1 1).z i + (ws0 1 1).rho_inv_vec i * (ws0 1 1).y i))) ∧
    (admm_iteration qpW sW (lin0 1 1) (ws0 1 1)).y = (fun i =>
      (ws0 1 1).y i + (ws0 1 1).rho_vec i *
        (sW.alpha * (admm_iteration qpW sW (lin0 1 1) (ws0 1 1)).z_tilde i +
          (1 - sW.alpha) * (ws0 1 1).z i -
          (admm_iteration qpW sW (lin0 1 1) (ws0 1 1)).z i))) :=
  ⟨by with_unfolding_all decide,
    c1_admm_iteration_follows_spec qpW sW (lin0 1 1) (ws0 1 1)
      (by with_unfolding_all decide)⟩

/-- Witness for C2: a concrete solve that returns SOLVED. -/
theorem c2_witness :
    (solve qpW sW2 (lin0 1 1) sqZ (ws0 1 1)).info_status = Status.SOLVED ∧
    (infNorm (fun i =>
        matVec qpW.A (solve qpW sW2 (lin0 1 1) sqZ (ws0 1 1)).x i -
          (solve qpW sW2 (lin0 1 1) sqZ (ws0 1 1)).z i) ≤
      sW2.eps_abs + sW2.eps_rel *
        max (infNorm (matVec qpW.A (solve qpW sW2 (lin0 1 1) sqZ (ws0 1 1)).x))
          (infNorm (solve qpW sW2 (lin0 1 1) sqZ (ws0 1 1)).z) ∧
    infNorm (fun j =>
        matVec qpW.P (solve qpW sW2 (lin0 1 1) sqZ (ws0 1 1)).x j + qpW.q j +
          matTVec qpW.A (solve qpW sW2 (lin0 1 1) sqZ (ws0 1 1)).y j) ≤
      sW2.eps_abs + sW2.eps_rel *
        max (infNorm (matVec qpW.P (solve qpW sW2 (lin0 1 1) sqZ (ws0 1 1)).x))
          (max (infNorm (matTVec qpW.A (solve qpW sW2 (lin0 1 1) sqZ (ws0 1 1)).y))
            (infNorm qpW.q))) :=
  ⟨by with_unfolding_all decide,
    c2_solved_satisfies_tolerances qpW sW2 (lin0 1 1) sqZ (ws0 1 1)
      (by with_unfolding_all decide)⟩

/-- Witness for C3 at the concrete problem `qpW`. -/
theorem c3_witness :
    (∀ i : Fin 1, qpW.l i ≤ qpW.u i) ∧
    ((∀ i, qpW.l i ≤ (admm_iteration qpW sW (lin0 1 1) (ws0 1 1)).z i ∧
      (admm_iteration qpW sW (lin0 1 1) (ws0 1 1)).z i ≤ qpW.u i) ∧
    (solve_iteration qpW sW (lin0 1 1) sqZ 1 (ws0 1 1)).1.z =
      (admm_iteration qpW sW (lin0 1 1) (ws0 1 1)).z) :=
  ⟨by with_unfolding_all decide,
    c3_z_within_bounds_after_projection qpW sW (lin0 1 1) sqZ 1 (ws0 1 1)
      (by with_unfolding_all decide)⟩

/-- Witness for C5 at `ρ₀ = 1` on a workspace with all three classes. -/
theorem c5_witness :
    (0 : ℚ) < 1 ∧
    ((∀ i,
      (wsC5.constr_type i = ConstrType.LOOSE_BOUNDS →
        (rho_update 1 wsC5).rho_vec i = RHO_MIN) ∧
      (wsC5.constr_type i = ConstrType.EQUALITY_CONSTRAINT →
        (rho_update 1 wsC5).rho_vec i = RHO_EQ_FACTOR * 1) ∧
      (wsC5.constr_type i = ConstrType.INEQUALITY_CONSTRAINT →
        (rho_update 1 wsC5).rho_vec i = 1)) ∧
    (∀ i, (rho_update 1 wsC5).rho_inv_vec i = 1 / (rho_update 1 wsC5).rho_vec i) ∧
    (∀ i, 0 < (rho_update 1 wsC5).rho_vec i) ∧
    (rho_update 1 wsC5).rho = 1) :=
  ⟨by norm_num, c5_rho_update_schedule 1 (by norm_num) wsC5⟩

/-- Witness for C7: `max_iter = 1` with the default check cadence yields
MAX_ITER with `iter = 2`. -/
theorem c7_witness :
    (1 : ℤ) ≤ sW7.max_iter ∧
    (run_loop qpW sW7 (lin0 1 1) sqZ sW7.max_iter.toNat 1
      (solve_prep qpW sW7 (ws0 1 1))).2.2 = false ∧
    ((solve qpW sW7 (lin0 1 1) sqZ (ws0 1 1)).info_status = Status.MAX_ITER ∧
      (solve qpW sW7 (lin0 1 1) sqZ (ws0 1 1)).info_iter = sW7.max_iter + 1) :=
  ⟨by decide, by with_unfolding_all decide,
    c7_max_iter_exhaustion qpW sW7 (lin0 1 1) sqZ (ws0 1 1) (by decide)
      (by with_unfolding_all decide)⟩

/-- Witness for C9: a concrete iteration where the adaptive trigger fires
and ρ drops to the clamp floor. -/
theorem c9_witness :
    sW9.adaptive_rho = true ∧
    ((solve_iteration qpW sW9 (lin0 1 1) sqZ 1 wsC9).1.rho ≠ wsC9.rho ∨
      (solve_iteration qpW sW9 (lin0 1 1) sqZ 1 wsC9).1.rho_vec ≠ wsC9.rho_vec) ∧
    ((1 : ℤ) % sW9.adaptive_rho_interval = 0 ∧
    rho_trigger sW9 (update_state qpW (admm_iteration qpW sW9 (lin0 1 1) wsC9))
      (new_rho_of sqZ (update_state qpW (admm_iteration qpW sW9 (lin0 1 1) wsC9))) ∧
    new_rho_of sqZ (update_state qpW (admm_iteration qpW sW9 (lin0 1 1) wsC9)) =
      max RHO_MIN (min (rho_estimate sqZ wsC9.rho
        (update_state qpW (admm_iteration qpW sW9 (lin0 1 1) wsC9))) RHO_MAX) ∧
    (solve_iteration qpW sW9 (lin0 1 1) sqZ 1 wsC9).1.rho =
      new_rho_of sqZ (update_state qpW (admm_iteration qpW sW9 (lin0 1 1) wsC9)) ∧
    (solve_iteration qpW sW9 (lin0 1 1) sqZ 1 wsC9).1.rho_vec =
      rho_vec_of wsC9.constr_type
        (new_rho_of sqZ (update_state qpW (admm_iteration qpW sW9 (lin0 1 1) wsC9))) ∧
    (solve_iteration qpW sW9 (lin0 1 1) sqZ 1 wsC9).1.ls_mat =
      KKT_assemble qpW sW9.sigma (fun i =>
        (rho_vec_of wsC9.constr_type
          (new_rho_of sqZ (update_state qpW (admm_iteration qpW sW9 (lin0 1 1) wsC9)))
            i)⁻¹)) :=
  ⟨rfl, by with_unfolding_all decide,
    c9_adaptive_rho_cadence qpW sW9 (lin0 1 1) sqZ 1 wsC9 rfl
      (by with_unfolding_all decide)⟩

/-- Witness for C10: termination check disabled, one iteration. -/
theorem c10_witness :
    sW10.check_termination = 0 ∧ sW10.adaptive_rho = false ∧
    (1 : ℤ) ≤ sW10.max_iter ∧
    ((solve qpW sW10 (lin0 1 1) sqZ (ws0 1 1)).info_status = Status.MAX_ITER ∧
    (solve qpW sW10 (lin0 1 1) sqZ (ws0 1 1)).info_iter = sW10.max_iter + 1 ∧
    (solve qpW sW10 (lin0 1 1) sqZ (ws0 1 1)).info_res_prim = (ws0 1 1).info_res_prim ∧
    (solve qpW sW10 (lin0 1 1) sqZ (ws0 1 1)).info_res_dual = (ws0 1 1).info_res_dual) :=
  ⟨rfl, rfl, by decide,
    c10_disabled_termination_check qpW sW10 (lin0 1 1) sqZ (ws0 1 1) rfl rfl (by decide)⟩

end QPSolverSparse
